import Mathlib

/-!
Verification development for the Telegram signature-lookup bot
(`bot.py` / `textos.py`).

The embedding models the Python values the bot manipulates (JSON-like
dynamic values), the SQLAlchemy-backed data model (`Usuario`, `Mensaje`,
`ConsultaConfig`), the billing / resolution operations, the Hércules
result classifier, and the per-lookup orchestration (admission, submit,
polling worker).  External I/O is modelled by explicit parameters:

* `jsonLoads : String → Option PyVal` stands for `json.loads`; `Option.none`
  means the call raised.
* HTTP responses are passed in as `Option PyVal` (`Option.none` = the
  `requests` call raised / `raise_for_status` fired).
* Wall-clock time is a `Nat` number of seconds; each sleep advances it by
  `RESULTADOS_INTERVALO` and remote calls are instantaneous.
* Telegram sends are recorded as the list of texts that `enviar_mensaje`
  was given.
-/

/-- A Python value as the bot handles them: JSON scalars, lists and dicts
(dicts are association lists; lookup returns the first binding). -/
inductive PyVal where
  | none
  | bool (b : Bool)
  | int (n : Int)
  | str (s : String)
  | list (xs : List PyVal)
  | dict (kvs : List (String × PyVal))

/-- Python truthiness (`bool(v)`): `None`, `False`, `0`, `""` and empty
containers are falsy, everything else truthy. -/
def PyVal.truthy : PyVal → Bool
  | PyVal.none => false
  | PyVal.bool b => b
  | PyVal.int n => n != 0
  | PyVal.str s => !s.isEmpty
  | PyVal.list xs => !xs.isEmpty
  | PyVal.dict kvs => !kvs.isEmpty

/-- `d.get(k)` on a dict: the first binding for `k`, `None` when absent. -/
def pyGet (kvs : List (String × PyVal)) (k : String) : PyVal :=
  match kvs.find? (fun p => p.1 == k) with
  | some p => p.2
  | Option.none => PyVal.none

/-- Python `a or b`: `a` when truthy, else `b`. -/
def pyOr (a b : PyVal) : PyVal := if a.truthy then a else b

mutual
/-- Python `repr(v)` (only the pieces the bot ever compares against:
a repr of a list or dict starts with a bracket, so it never equals
"0" or "EXITOSO", which is all the source relies on). -/
def pyRepr : PyVal → String
  | PyVal.none => "None"
  | PyVal.bool true => "True"
  | PyVal.bool false => "False"
  | PyVal.int n => toString n
  | PyVal.str s => "\x27" ++ s ++ "\x27"
  | PyVal.list xs => "[" ++ pyReprItems xs ++ "]"
  | PyVal.dict kvs => "\x7b" ++ pyReprPairs kvs ++ "\x7d"

def pyReprItems : List PyVal → String
  | [] => ""
  | [v] => pyRepr v
  | v :: vs => pyRepr v ++ ", " ++ pyReprItems vs

def pyReprPairs : List (String × PyVal) → String
  | [] => ""
  | [(k, v)] => "\x27" ++ k ++ "\x27: " ++ pyRepr v
  | (k, v) :: ps => "\x27" ++ k ++ "\x27: " ++ pyRepr v ++ ", " ++ pyReprPairs ps
end

/-- Python `str(v)`: identity on strings, `repr` otherwise. -/
def pyStr : PyVal → String
  | PyVal.str s => s
  | v => pyRepr v

/-- Python `sub in s` for a non-empty `sub` (substring containment). -/
def textoContiene (s sub : String) : Bool := (s.splitOn sub).length != 1

/-- Python `v == n` for an int literal `n` (Python bools compare equal to
0/1; no other type compares equal to an int). -/
def pyEqInt (v : PyVal) (m : Int) : Bool :=
  match v with
  | PyVal.int n => n == m
  | PyVal.bool b => (if b then (1 : Int) else 0) == m
  | _ => false

/-- `data.get("Tipo")`, falling back to `data.get("tipo")` when the first
is `None` (the `if tipo is None` pattern in the source). -/
def campoTipo (kvs : List (String × PyVal)) : PyVal :=
  match pyGet kvs "Tipo" with
  | PyVal.none => pyGet kvs "tipo"
  | t => t

/-- `data.get("Mensaje") or data.get("mensaje")`. -/
def campoMensaje (kvs : List (String × PyVal)) : PyVal :=
  pyOr (pyGet kvs "Mensaje") (pyGet kvs "mensaje")

/-- The `isinstance(data, str)` normalisation at the top of
`es_respuesta_exitosa_hercules`: a string argument is passed through
`json.loads` (a parse failure there is the raising path, caught by the
function's `except`), anything else is used as is. -/
def normalizarDato (jsonLoads : String → Option PyVal) (data : PyVal) : Option PyVal :=
  match data with
  | PyVal.str s => jsonLoads s
  | v => some v

/-- The inner-payload checks of `es_respuesta_exitosa_hercules` (step 3 of
the source function): on a dict, an explicit `Error == True`, a
`codigoResultado`/`codigo` different from "EXITOSO", or an `error` text
containing "no encontrado" each mean failure; anything else is success. -/
def revisarMensajeJson (mensaje_json : PyVal) : Bool :=
  match mensaje_json with
  | PyVal.dict kvs =>
    match pyGet kvs "Error" with
    | PyVal.bool true => false
    | _ =>
      let codigo := pyOr (pyGet kvs "codigoResultado") (pyGet kvs "codigo")
      if codigo.truthy && (pyStr codigo).toUpper != "EXITOSO" then false
      else
        match pyGet kvs "error" with
        | PyVal.str e => if textoContiene e.toLower "no encontrado" then false else true
        | _ => true
  | _ => true

/-- `es_respuesta_exitosa_hercules` from the source: decides whether a
final Hércules payload counts as a chargeable success.  The whole body
runs under `try/except Exception: return False`; the only raising
operation it performs is the top-level `json.loads`, modelled by
`normalizarDato` returning `Option.none`. -/
def es_respuesta_exitosa_hercules
    (jsonLoads : String → Option PyVal) (data : PyVal) : Bool :=
  match normalizarDato jsonLoads data with
  | Option.none => false
  | some d =>
    match d with
    | PyVal.dict kvs =>
      let tipo := campoTipo kvs
      if pyStr tipo != "0" then false
      else
        let mensaje_raw := campoMensaje kvs
        if !mensaje_raw.truthy then false
        else
          match mensaje_raw with
          | PyVal.str s =>
            match jsonLoads s with
            | Option.none => true
            | some mensaje_json => revisarMensajeJson mensaje_json
          | PyVal.dict kvs2 => revisarMensajeJson (PyVal.dict kvs2)
          | _ => true
    | _ => false

/-- The classifier as the specification words it, rules in order with the
first match winning, written independently of the source function to be
compared against it:
1. status code other than the final/OK code "0" → not billable;
2. empty inner content → not billable;
3. non-empty string content that fails to parse → billable;
4. parsed structured content with `Error` = true → not billable;
5. a result code present and (case-insensitively) ≠ "EXITOSO" → not billable;
6. a free-text error field containing "no encontrado" → not billable;
7. otherwise billable. -/
def clasificador_spec
    (jsonLoads : String → Option PyVal) (kvs : List (String × PyVal)) : Bool :=
  let codigoEstado := campoTipo kvs
  let contenido := campoMensaje kvs
  let analizado : Option PyVal :=
    match contenido with
    | PyVal.str s => jsonLoads s
    | v => some v
  if pyStr codigoEstado != "0" then false
  else if !contenido.truthy then false
  else
    match contenido, analizado with
    | PyVal.str _, Option.none => true
    | _, some (PyVal.dict m) =>
      if (match pyGet m "Error" with | PyVal.bool true => true | _ => false) then false
      else if ((pyOr (pyGet m "codigoResultado") (pyGet m "codigo")).truthy
               && (pyStr (pyOr (pyGet m "codigoResultado") (pyGet m "codigo"))).toUpper
                    != "EXITOSO") then false
      else if (match pyGet m "error" with
               | PyVal.str e => textoContiene e.toLower "no encontrado"
               | _ => false) then false
      else true
    | _, _ => true

/-- A parser stand-in for concrete runs: every string fails to parse
(models `json.loads` raising on non-JSON text). -/
def jsonLoadsFalla : String → Option PyVal := fun _ => Option.none

/-- Row of the `usuarios` table.  Credit counters are integers
(`creditos_total` starts at 10 for a new user, `creditos_usados` at 0);
`ultima_consulta` is the last-lookup timestamp in seconds. -/
structure Usuario where
  id : Nat
  telegram_id : String
  username : Option String
  first_name : Option String
  last_name : Option String
  rol : String
  creditos_total : Int
  creditos_usados : Int
  ultima_consulta : Option Nat
deriving DecidableEq

/-- Row of the `mensajes` table: one lookup attempt.  `parametros` and
`respuesta_bruta` hold the structured value whose JSON serialisation the
source stores in the Text columns; `estado` is one of "pendiente",
"exito", "error", "sin_datos".  The creation wall-clock time is
abstracted to 0 (no claim depends on it). -/
structure Mensaje where
  id : Nat
  usuario_id : Nat
  tipo_consulta : Nat
  nombre_servicio : String
  parametros : PyVal
  creditos_costo : Int
  estado : String
  respuesta_bruta : Option PyVal
  mensaje_error : Option String
  fecha_creacion : Nat

/-- Row of the `consultas_config` table: price and on/off flag per
lookup kind (`estado_consulta` is "ACTIVA" or "INACTIVA"). -/
structure ConsultaConfig where
  id : Nat
  tipo_consulta : Nat
  nombre_servicio : String
  valor_consulta : Int
  estado_consulta : String
deriving DecidableEq

/-- The relational store: the three tables plus the autoincrement
counters for the two tables the bot inserts into. -/
structure DB where
  usuarios : List Usuario
  mensajes : List Mensaje
  configs : List ConsultaConfig
  nextUsuarioId : Nat
  nextMensajeId : Nat

/-- Lookup-kind constants from the source catalogue. -/
def TIPO_CONSULTA_VEHICULO_PERSONA : Nat := 1
def TIPO_CONSULTA_VEHICULO_SOLO : Nat := 3
def TIPO_CONSULTA_PROPIETARIO_POR_PLACA : Nat := 4
def TIPO_CONSULTA_PERSONA : Nat := 5
def TIPO_CONSULTA_FIRMA : Nat := 8

/-- Poll interval and total poll timeout, at their source defaults
(`RESULTADOS_INTERVALO = 4`, `RESULTADOS_TIMEOUT = 180` seconds). -/
def RESULTADOS_INTERVALO : Nat := 4
def RESULTADOS_TIMEOUT : Nat := 180

/-- `db.query(Usuario).filter_by(id=uid)`: first row with that id. -/
def buscarUsuario (us : List Usuario) (uid : Nat) : Option Usuario :=
  us.find? (fun u => u.id == uid)

/-- `db.query(Mensaje).filter_by(id=mid)`: first row with that id. -/
def buscarMensaje (ms : List Mensaje) (mid : Nat) : Option Mensaje :=
  ms.find? (fun m => m.id == mid)

/-- Commit an UPDATE of the user row with the given id. -/
def actualizarUsuario (us : List Usuario) (uid : Nat) (f : Usuario → Usuario) :
    List Usuario :=
  us.map (fun u => if u.id == uid then f u else u)

/-- Commit an UPDATE of the message row with the given id. -/
def actualizarMensaje (ms : List Mensaje) (mid : Nat) (f : Mensaje → Mensaje) :
    List Mensaje :=
  ms.map (fun m => if m.id == mid then f m else m)

/-- `get_consulta_config`: the configuration row for a lookup kind. -/
def get_consulta_config (db : DB) (tipo_consulta : Nat) : Option ConsultaConfig :=
  db.configs.find? (fun c => c.tipo_consulta == tipo_consulta)

/-- `usuario_creditos_disponibles`: `max(total - usados, 0)`. -/
def usuario_creditos_disponibles (u : Usuario) : Int :=
  max (u.creditos_total - u.creditos_usados) 0

/-- The four rows `init_db` seeds when `consultas_config` is empty:
every kind at 5000 credits and ACTIVA. -/
def configsPorDefecto : List ConsultaConfig :=
  [ { id := 1, tipo_consulta := TIPO_CONSULTA_VEHICULO_SOLO,
      nombre_servicio := "vehiculo_placa", valor_consulta := 5000,
      estado_consulta := "ACTIVA" },
    { id := 2, tipo_consulta := TIPO_CONSULTA_PROPIETARIO_POR_PLACA,
      nombre_servicio := "propietario_placa", valor_consulta := 5000,
      estado_consulta := "ACTIVA" },
    { id := 3, tipo_consulta := TIPO_CONSULTA_PERSONA,
      nombre_servicio := "persona", valor_consulta := 5000,
      estado_consulta := "ACTIVA" },
    { id := 4, tipo_consulta := TIPO_CONSULTA_FIRMA,
      nombre_servicio := "firma", valor_consulta := 5000,
      estado_consulta := "ACTIVA" } ]

/-- `init_db`: creates tables and seeds `consultas_config` only when it
is empty. -/
def init_db (db : DB) : DB :=
  match db.configs with
  | _ :: _ => db
  | [] => { db with configs := configsPorDefecto }

/-- `get_or_create_usuario_from_update`, reduced to its data effect: an
existing user (by `telegram_id`) gets its profile fields refreshed; a
new user is created with role "user", 10 granted credits and 0 consumed. -/
def get_or_create_usuario (db : DB) (telegram_id : String)
    (username first_name last_name : Option String) : DB × Usuario :=
  match db.usuarios.find? (fun u => u.telegram_id == telegram_id) with
  | some u =>
    let refrescar := fun (v : Usuario) =>
      { v with username := username, first_name := first_name,
               last_name := last_name }
    ({ db with usuarios := actualizarUsuario db.usuarios u.id refrescar },
     refrescar u)
  | Option.none =>
    let u : Usuario :=
      { id := db.nextUsuarioId, telegram_id := telegram_id,
        username := username, first_name := first_name,
        last_name := last_name, rol := "user",
        creditos_total := 10, creditos_usados := 0,
        ultima_consulta := Option.none }
    ({ db with usuarios := db.usuarios ++ [u],
               nextUsuarioId := db.nextUsuarioId + 1 }, u)

/-- `registrar_mensaje_pendiente`: re-reads the user row with `.one()`
(raising, modelled as `Except.error`, when it is missing) and inserts a
new "pendiente" record carrying the price captured now. -/
def registrar_mensaje_pendiente (db : DB) (usuario : Usuario)
    (tipo_consulta : Nat) (nombre_servicio : String) (parametros : PyVal)
    (valor_consulta : Int) : Except String (Nat × DB) :=
  match buscarUsuario db.usuarios usuario.id with
  | Option.none => Except.error "NoResultFound en registrar_mensaje_pendiente"
  | some u =>
    let msg : Mensaje :=
      { id := db.nextMensajeId, usuario_id := u.id,
        tipo_consulta := tipo_consulta, nombre_servicio := nombre_servicio,
        parametros := parametros, creditos_costo := valor_consulta,
        estado := "pendiente", respuesta_bruta := Option.none,
        mensaje_error := Option.none, fecha_creacion := 0 }
    Except.ok (msg.id,
      { db with mensajes := db.mensajes ++ [msg],
                nextMensajeId := db.nextMensajeId + 1 })

/-- `marcar_mensaje_exito_y_cobrar`: looks the record up (silently a
no-op when the id does not exist), then unconditionally sets its state
to "exito", stores the raw payload, adds the record's captured price to
the owning user's consumed credits and stamps the last-lookup time — all
in one commit.  `.one()` on the user raises when the owner row is
missing, modelled as `Option.none`. -/
def marcar_mensaje_exito_y_cobrar (db : DB) (mensaje_id : Nat)
    (respuesta_bruta : PyVal) (ahora : Nat) : Option DB :=
  match buscarMensaje db.mensajes mensaje_id with
  | Option.none => some db
  | some msg =>
    match buscarUsuario db.usuarios msg.usuario_id with
    | Option.none => Option.none
    | some _ =>
      let aExito := fun (m : Mensaje) =>
        { m with estado := "exito", respuesta_bruta := some respuesta_bruta }
      let cobrar := fun (u : Usuario) =>
        { u with creditos_usados := u.creditos_usados + msg.creditos_costo,
                 ultima_consulta := some ahora }
      some { db with
        mensajes := actualizarMensaje db.mensajes mensaje_id aExito,
        usuarios := actualizarUsuario db.usuarios msg.usuario_id cobrar }

/-- `marcar_mensaje_error_o_sin_datos`: sets the record's state to
"error" or "sin_datos" with the detail text (falling back to the state
name when the detail is empty, the `mensaje_error or estado` idiom) and
the optional raw payload; it never touches the user row. -/
def marcar_mensaje_error_o_sin_datos (db : DB) (mensaje_id : Nat)
    (estado : String) (mensaje_error : String)
    (respuesta_bruta : Option PyVal) : DB :=
  match buscarMensaje db.mensajes mensaje_id with
  | Option.none => db
  | some _ =>
    let aFallo := fun (m : Mensaje) =>
      { m with estado := estado,
               mensaje_error :=
                 some (if mensaje_error != "" then mensaje_error else estado),
               respuesta_bruta :=
                 match respuesta_bruta with
                 | some r => some r
                 | Option.none => m.respuesta_bruta }
    { db with mensajes := actualizarMensaje db.mensajes mensaje_id aFallo }

/-- A user fixture for concrete runs of the resolution operations. -/
def usuarioW : Usuario :=
  { id := 1, telegram_id := "111", username := Option.none,
    first_name := Option.none, last_name := Option.none, rol := "user",
    creditos_total := 20000, creditos_usados := 0,
    ultima_consulta := Option.none }

/-- A pending record fixture owned by `usuarioW`, price 5000. -/
def mensajeW : Mensaje :=
  { id := 1, usuario_id := 1, tipo_consulta := 8, nombre_servicio := "firma",
    parametros := PyVal.none, creditos_costo := 5000, estado := "pendiente",
    respuesta_bruta := Option.none, mensaje_error := Option.none,
    fecha_creacion := 0 }

/-- Store with one user and one pending record. -/
def dbW : DB :=
  { usuarios := [usuarioW], mensajes := [mensajeW], configs := [],
    nextUsuarioId := 2, nextMensajeId := 2 }

/-- A record fixture that is already resolved ("exito"), owned by a user
who has already been charged 5000 for it. -/
def mensajeResuelto : Mensaje :=
  { mensajeW with estado := "exito" }

/-- The corresponding user, already charged once. -/
def usuarioCobrado : Usuario :=
  { usuarioW with creditos_usados := 5000, ultima_consulta := some 3 }

/-- Store holding the already-resolved record. -/
def dbResuelto : DB :=
  { usuarios := [usuarioCobrado], mensajes := [mensajeResuelto], configs := [],
    nextUsuarioId := 2, nextMensajeId := 2 }

/-- `textos.MENSAJE_SIN_CREDITOS`. -/
def MENSAJE_SIN_CREDITOS : String :=
  "⚠️ No tienes créditos suficientes para realizar esta consulta.\n" ++
  "Si crees que es un error, contacta con el administrador."

/-- `textos.MENSAJE_ERROR_GENERICO`. -/
def MENSAJE_ERROR_GENERICO : String :=
  "❌ Ocurrió un error realizando la consulta.\n\n" ++
  "Por favor inténtalo de nuevo más tarde. " ++
  "Si el problema persiste, contacta con el administrador."

/-- `textos.MENSAJE_SIN_DATOS`. -/
def MENSAJE_SIN_DATOS : String :=
  "ℹ️ La consulta fue procesada pero no se encontraron datos para los parámetros enviados."

/-- The inline refusal text for a disabled kind in
`_verificar_creditos_o_mensaje`. -/
def MENSAJE_CONSULTA_DESHABILITADA : String :=
  "⚠️ Esta consulta está deshabilitada."

/-- `llamar_iniciar_consulta`: POST `/api/IniciarConsulta` and extract the
request handle.  `respuestaHttp = Option.none` models the transport
raising (`requests.post` failure or `raise_for_status`).  The new format
carries `IdPeticion`/`idPeticion`; the old format answers `Tipo == 0`
with the handle in `Mensaje`/`mensaje`; anything else raises
`RuntimeError` (an acknowledgment with no usable handle). -/
def llamar_iniciar_consulta (tipo_consulta : Nat) (mensaje_payload : PyVal)
    (respuestaHttp : Option PyVal) : Except String String :=
  match respuestaHttp with
  | Option.none => Except.error "HTTPError en IniciarConsulta"
  | some data =>
    match data with
    | PyVal.dict kvs =>
      let id_peticion := pyOr (pyGet kvs "IdPeticion") (pyGet kvs "idPeticion")
      if id_peticion.truthy then Except.ok (pyStr id_peticion)
      else
        let tipo := campoTipo kvs
        let mensaje := campoMensaje kvs
        if pyEqInt tipo 0 && mensaje.truthy then Except.ok (pyStr mensaje)
        else Except.error "Respuesta no esperada de IniciarConsulta"
    | _ => Except.error "AttributeError en IniciarConsulta"

/-- `_verificar_creditos_o_mensaje`: refuse (with the corresponding
message) when the kind is missing or not ACTIVA, or when the freshly
re-read user's available credits are below the kind's price.  The
`.one()` re-read raises when the user row is missing, modelled as
`Except.error`.  On refusal the returned list holds the text sent. -/
def verificar_creditos_o_mensaje (db : DB) (usuario : Usuario)
    (config : Option ConsultaConfig) : Except String (Bool × List String) :=
  match config with
  | Option.none => Except.ok (false, [MENSAJE_CONSULTA_DESHABILITADA])
  | some c =>
    if c.estado_consulta != "ACTIVA" then
      Except.ok (false, [MENSAJE_CONSULTA_DESHABILITADA])
    else
      match buscarUsuario db.usuarios usuario.id with
      | Option.none => Except.error "NoResultFound en verificar_creditos"
      | some u =>
        if usuario_creditos_disponibles u < c.valor_consulta then
          Except.ok (false, [MENSAJE_SIN_CREDITOS])
        else
          Except.ok (true, [])

/-- Outcome of the synchronous part of one `iniciar_consulta_*` call:
the store afterwards, the chat texts sent, how many times the remote
submit endpoint was called, the id of the record handed to a polling
worker (when one was started), and the exception text when one escaped
to the caller's request path. -/
structure ResultadoInicio where
  db : DB
  enviados : List String
  llamadasIniciarConsulta : Nat
  hiloLanzado : Option Nat
  excepcionSincrona : Option String

/-- `iniciar_consulta_firma` (kind 8): admission check, remote submit
with the `"{tipo_doc},{num_doc}"` string encoding, then registration of
the pending record and launch of the polling worker.  A submit failure
sends the generic failure message and returns — note the record is only
created after a successful submit. -/
def iniciar_consulta_firma (db : DB) (usuario : Usuario)
    (respuestaHttp : Option PyVal) (tipo_doc num_doc : String) : ResultadoInicio :=
  let config := get_consulta_config db TIPO_CONSULTA_FIRMA
  match verificar_creditos_o_mensaje db usuario config with
  | Except.error e =>
    { db := db, enviados := [], llamadasIniciarConsulta := 0,
      hiloLanzado := Option.none, excepcionSincrona := some e }
  | Except.ok (false, msgs) =>
    { db := db, enviados := msgs, llamadasIniciarConsulta := 0,
      hiloLanzado := Option.none, excepcionSincrona := Option.none }
  | Except.ok (true, _) =>
    let mensaje_payload := PyVal.str (tipo_doc ++ "," ++ num_doc)
    match llamar_iniciar_consulta TIPO_CONSULTA_FIRMA mensaje_payload respuestaHttp with
    | Except.error _ =>
      { db := db, enviados := [MENSAJE_ERROR_GENERICO],
        llamadasIniciarConsulta := 1, hiloLanzado := Option.none,
        excepcionSincrona := Option.none }
    | Except.ok _id_peticion =>
      let valor := match config with
        | some c => c.valor_consulta
        | Option.none => 0   -- unreachable: the admission check passed
      let parametros := PyVal.dict
        [("tipoDocumento", PyVal.str tipo_doc), ("numeroDocumento", PyVal.str num_doc)]
      match registrar_mensaje_pendiente db usuario TIPO_CONSULTA_FIRMA "firma"
          parametros valor with
      | Except.error e =>
        { db := db, enviados := [], llamadasIniciarConsulta := 1,
          hiloLanzado := Option.none, excepcionSincrona := some e }
      | Except.ok (msg_id, db2) =>
        { db := db2, enviados := [], llamadasIniciarConsulta := 1,
          hiloLanzado := some msg_id, excepcionSincrona := Option.none }

/-- `iniciar_consulta_persona` (kind 5): as for firma but with a
structured payload. -/
def iniciar_consulta_persona (db : DB) (usuario : Usuario)
    (respuestaHttp : Option PyVal) (tipo_doc num_doc : String) : ResultadoInicio :=
  let config := get_consulta_config db TIPO_CONSULTA_PERSONA
  match verificar_creditos_o_mensaje db usuario config with
  | Except.error e =>
    { db := db, enviados := [], llamadasIniciarConsulta := 0,
      hiloLanzado := Option.none, excepcionSincrona := some e }
  | Except.ok (false, msgs) =>
    { db := db, enviados := msgs, llamadasIniciarConsulta := 0,
      hiloLanzado := Option.none, excepcionSincrona := Option.none }
  | Except.ok (true, _) =>
    let mensaje_payload := PyVal.dict
      [("tipoDocumento", PyVal.str tipo_doc), ("numeroDocumento", PyVal.str num_doc)]
    match llamar_iniciar_consulta TIPO_CONSULTA_PERSONA mensaje_payload respuestaHttp with
    | Except.error _ =>
      { db := db, enviados := [MENSAJE_ERROR_GENERICO],
        llamadasIniciarConsulta := 1, hiloLanzado := Option.none,
        excepcionSincrona := Option.none }
    | Except.ok _id_peticion =>
      let valor := match config with
        | some c => c.valor_consulta
        | Option.none => 0   -- unreachable: the admission check passed
      match registrar_mensaje_pendiente db usuario TIPO_CONSULTA_PERSONA "persona"
          mensaje_payload valor with
      | Except.error e =>
        { db := db, enviados := [], llamadasIniciarConsulta := 1,
          hiloLanzado := Option.none, excepcionSincrona := some e }
      | Except.ok (msg_id, db2) =>
        { db := db2, enviados := [], llamadasIniciarConsulta := 1,
          hiloLanzado := some msg_id, excepcionSincrona := Option.none }

/-- `iniciar_consulta_vehiculo` (plate lookup): reads the kind-3
configuration, but submits and registers under kind 1
(`TIPO_CONSULTA_VEHICULO_PERSONA`).  Its worker-launch call in the
source passes `TIPO_CONSULTA_VEHICULO_PERSONA` as a stray first
positional argument *and* `chat_id` by keyword, so Python raises
`TypeError` at the call site before any thread starts: the freshly
created pending record is left behind and the exception escapes
synchronously to the caller. -/
def iniciar_consulta_vehiculo (db : DB) (usuario : Usuario)
    (respuestaHttp : Option PyVal) (placa : String) : ResultadoInicio :=
  let config := get_consulta_config db TIPO_CONSULTA_VEHICULO_SOLO
  match verificar_creditos_o_mensaje db usuario config with
  | Except.error e =>
    { db := db, enviados := [], llamadasIniciarConsulta := 0,
      hiloLanzado := Option.none, excepcionSincrona := some e }
  | Except.ok (false, msgs) =>
    { db := db, enviados := msgs, llamadasIniciarConsulta := 0,
      hiloLanzado := Option.none, excepcionSincrona := Option.none }
  | Except.ok (true, _) =>
    let placa_limpia := (placa.replace " " "").toUpper
    let mensaje_payload := PyVal.str placa_limpia
    match llamar_iniciar_consulta TIPO_CONSULTA_VEHICULO_PERSONA mensaje_payload
        respuestaHttp with
    | Except.error _ =>
      { db := db, enviados := [MENSAJE_ERROR_GENERICO],
        llamadasIniciarConsulta := 1, hiloLanzado := Option.none,
        excepcionSincrona := Option.none }
    | Except.ok _id_peticion =>
      let valor := match config with
        | some c => c.valor_consulta
        | Option.none => 0   -- unreachable: the admission check passed
      match registrar_mensaje_pendiente db usuario TIPO_CONSULTA_VEHICULO_PERSONA
          "vehiculo_placa" (PyVal.dict [("placa", PyVal.str placa_limpia)]) valor with
      | Except.error e =>
        { db := db, enviados := [], llamadasIniciarConsulta := 1,
          hiloLanzado := Option.none, excepcionSincrona := some e }
      | Except.ok (_msg_id, db2) =>
        { db := db2, enviados := [], llamadasIniciarConsulta := 1,
          hiloLanzado := Option.none,
          excepcionSincrona :=
            some "TypeError: ejecutar_consulta_en_hilo got multiple values for argument chat_id" }

/-- `iniciar_consulta_propietario` (kind 4): as for firma with the plate
string payload. -/
def iniciar_consulta_propietario (db : DB) (usuario : Usuario)
    (respuestaHttp : Option PyVal) (placa : String) : ResultadoInicio :=
  let config := get_consulta_config db TIPO_CONSULTA_PROPIETARIO_POR_PLACA
  match verificar_creditos_o_mensaje db usuario config with
  | Except.error e =>
    { db := db, enviados := [], llamadasIniciarConsulta := 0,
      hiloLanzado := Option.none, excepcionSincrona := some e }
  | Except.ok (false, msgs) =>
    { db := db, enviados := msgs, llamadasIniciarConsulta := 0,
      hiloLanzado := Option.none, excepcionSincrona := Option.none }
  | Except.ok (true, _) =>
    let placa_limpia := (placa.replace " " "").toUpper
    let mensaje_payload := PyVal.str placa_limpia
    match llamar_iniciar_consulta TIPO_CONSULTA_PROPIETARIO_POR_PLACA
        mensaje_payload respuestaHttp with
    | Except.error _ =>
      { db := db, enviados := [MENSAJE_ERROR_GENERICO],
        llamadasIniciarConsulta := 1, hiloLanzado := Option.none,
        excepcionSincrona := Option.none }
    | Except.ok _id_peticion =>
      let valor := match config with
        | some c => c.valor_consulta
        | Option.none => 0   -- unreachable: the admission check passed
      match registrar_mensaje_pendiente db usuario
          TIPO_CONSULTA_PROPIETARIO_POR_PLACA "propietario_placa"
          (PyVal.dict [("placa", PyVal.str placa_limpia)]) valor with
      | Except.error e =>
        { db := db, enviados := [], llamadasIniciarConsulta := 1,
          hiloLanzado := Option.none, excepcionSincrona := some e }
      | Except.ok (msg_id, db2) =>
        { db := db2, enviados := [], llamadasIniciarConsulta := 1,
          hiloLanzado := some msg_id, excepcionSincrona := Option.none }

/-- The polling loop of the worker (`while time.time() < deadline`).
`polls` is the sequence of `/api/resultados` outcomes the remote side
would produce (`Option.none` = the HTTP call raised; an exhausted trace
also models a raise).  `ahora` is the wall clock, advanced by
`RESULTADOS_INTERVALO` for each sleep after a `Tipo == 2` (processing)
response; any other response stops the loop with the payload captured.
Returns the `ultimo_data` seen (the `Except.error` case is a raised
exception, caught by the worker's handler) and the final clock. -/
def bucle_resultados : List (Option PyVal) → Nat → Option PyVal →
    (Except String (Option PyVal)) × Nat
  | polls, ahora, ultimo =>
    if RESULTADOS_TIMEOUT ≤ ahora then (Except.ok ultimo, ahora)
    else
      match polls with
      | [] => (Except.error "HTTPError en resultados", ahora)
      | p :: rest =>
        match p with
        | Option.none => (Except.error "HTTPError en resultados", ahora)
        | some data =>
          match data with
          | PyVal.dict kvs =>
            if pyEqInt (campoTipo kvs) 2 then
              bucle_resultados rest (ahora + RESULTADOS_INTERVALO) (some data)
            else (Except.ok (some data), ahora)
          | _ => (Except.error "AttributeError en resultados", ahora)

/-- Result of one worker run (`_run` inside
`ejecutar_consulta_en_hilo`): the store afterwards, the chat texts sent,
and whether the vehicle PDF document was generated and sent. -/
structure ResultadoHilo where
  db : DB
  enviados : List String
  pdfEnviado : Bool

/-- The worker body of `ejecutar_consulta_en_hilo`: poll until a final
payload or the deadline, decide whether to charge with
`es_respuesta_exitosa_hercules`, resolve the record accordingly and send
the user text.  `formateador` is the presentation callback; the
vehicle-report PDF is generated and sent exactly when the worker's
`tipo_consulta` equals `TIPO_CONSULTA_VEHICULO_SOLO` (kind 3).  Any
exception inside the body is caught by the final handler, which resolves
the record "error" with the exception text and sends the generic
failure message. -/
def ejecutar_consulta_en_hilo (jsonLoads : String → Option PyVal) (db : DB)
    (mensaje_id : Nat) (tipo_consulta : Nat) (formateador : PyVal → String)
    (polls : List (Option PyVal)) : ResultadoHilo :=
  match bucle_resultados polls 0 Option.none with
  | (Except.error e, _) =>
    { db := marcar_mensaje_error_o_sin_datos db mensaje_id "error" e Option.none,
      enviados := [MENSAJE_ERROR_GENERICO], pdfEnviado := false }
  | (Except.ok ultimo_data, tFinal) =>
    match ultimo_data with
    | Option.none =>
      { db := marcar_mensaje_error_o_sin_datos db mensaje_id "error"
          "Sin respuesta de resultados (timeout)." Option.none,
        enviados := [MENSAJE_ERROR_GENERICO], pdfEnviado := false }
    | some data =>
      if !data.truthy then
        { db := marcar_mensaje_error_o_sin_datos db mensaje_id "error"
            "Sin respuesta de resultados (timeout)." Option.none,
          enviados := [MENSAJE_ERROR_GENERICO], pdfEnviado := false }
      else if es_respuesta_exitosa_hercules jsonLoads data then
        match marcar_mensaje_exito_y_cobrar db mensaje_id data tFinal with
        | some db2 =>
          { db := db2, enviados := [formateador data],
            pdfEnviado := tipo_consulta == TIPO_CONSULTA_VEHICULO_SOLO }
        | Option.none =>
          { db := marcar_mensaje_error_o_sin_datos db mensaje_id "error"
              "NoResultFound en marcar_mensaje_exito_y_cobrar" Option.none,
            enviados := [MENSAJE_ERROR_GENERICO], pdfEnviado := false }
      else
        { db := marcar_mensaje_error_o_sin_datos db mensaje_id "sin_datos"
            "Consulta sin datos o no exitosa." (some data),
          enviados := [MENSAJE_SIN_DATOS], pdfEnviado := false }

/-- A `/api/resultados` response still in progress (`Tipo == 2`). -/
def respuestaProcesando : PyVal :=
  PyVal.dict [("Tipo", PyVal.int 2), ("Mensaje", PyVal.str "En proceso")]

/-- A poll trace in which every response before the deadline is
"processing": 45 polls cover the whole 180-second window at one poll
per 4-second interval. -/
def pollsSiempreProcesando : List (Option PyVal) :=
  List.replicate 45 (some respuestaProcesando)

/-- User fixture with plenty of credits. -/
def usuarioConSaldo : Usuario :=
  { id := 1, telegram_id := "222", username := Option.none,
    first_name := Option.none, last_name := Option.none, rol := "user",
    creditos_total := 20000, creditos_usados := 0,
    ultima_consulta := Option.none }

/-- Store with the rich user, one pending record (id 1) and the default
kind configurations. -/
def dbSondeo : DB :=
  { usuarios := [usuarioConSaldo], mensajes := [mensajeW],
    configs := configsPorDefecto, nextUsuarioId := 2, nextMensajeId := 2 }

/-- The worker run on the all-processing trace. -/
def hiloSoloProcesando : ResultadoHilo :=
  ejecutar_consulta_en_hilo jsonLoadsFalla dbSondeo 1 TIPO_CONSULTA_FIRMA
    (fun _ => "texto") pollsSiempreProcesando

/-- Store with the rich user, no records yet, default configurations. -/
def dbListo : DB :=
  { usuarios := [usuarioConSaldo], mensajes := [], configs := configsPorDefecto,
    nextUsuarioId := 2, nextMensajeId := 1 }

/-- A signature lookup whose remote submit raises (transport failure). -/
def inicioFirmaFalloEnvio : ResultadoInicio :=
  iniciar_consulta_firma dbListo usuarioConSaldo Option.none "CC" "123456"

/-- The firma row of the default configuration. -/
def configFirmaDefecto : ConsultaConfig :=
  { id := 4, tipo_consulta := TIPO_CONSULTA_FIRMA, nombre_servicio := "firma",
    valor_consulta := 5000, estado_consulta := "ACTIVA" }

/-- An INACTIVA firma configuration and a store holding it. -/
def configFirmaInactiva : ConsultaConfig :=
  { id := 9, tipo_consulta := TIPO_CONSULTA_FIRMA, nombre_servicio := "firma",
    valor_consulta := 5000, estado_consulta := "INACTIVA" }

/-- Store whose firma kind is disabled, user rich. -/
def dbFirmaInactiva : DB :=
  { usuarios := [usuarioConSaldo], mensajes := [], configs := [configFirmaInactiva],
    nextUsuarioId := 2, nextMensajeId := 1 }

/-- Fresh store as the process boots: empty tables, then `init_db`. -/
def dbInicial : DB :=
  init_db { usuarios := [], mensajes := [], configs := [],
            nextUsuarioId := 1, nextMensajeId := 1 }

/-- First contact of a brand-new Telegram user with the booted store. -/
def altaNueva : DB × Usuario :=
  get_or_create_usuario dbInicial "555" Option.none Option.none Option.none

/-- The store after the lazy creation. -/
def dbNuevo : DB := altaNueva.1

/-- The lazily created user. -/
def usuarioNuevo : Usuario := altaNueva.2

/-- A submit acknowledgment carrying a handle. -/
def respuestaIdPeticion : PyVal := PyVal.dict [("IdPeticion", PyVal.str "H1")]

/-- A vehicle lookup by plate on the ready store, with a good submit. -/
def inicioVehiculo : ResultadoInicio :=
  iniciar_consulta_vehiculo dbListo usuarioConSaldo (some respuestaIdPeticion)
    "abc 123"

/-- A final billable payload: status 0 and non-empty unparsable content
(the classifier's lenient rule makes it a success). -/
def respuestaFinalExitosa : PyVal :=
  PyVal.dict [("Tipo", PyVal.int 0), ("Mensaje", PyVal.str "contenido no json")]

/-- The worker as the vehicle flow would invoke it — with
`tipo_consulta = TIPO_CONSULTA_VEHICULO_PERSONA` (kind 1), the value the
source call passes — on a billable final payload. -/
def hiloVehiculoComoLlamado : ResultadoHilo :=
  ejecutar_consulta_en_hilo jsonLoadsFalla inicioVehiculo.db 1
    TIPO_CONSULTA_VEHICULO_PERSONA (fun _ => "informe") [some respuestaFinalExitosa]

/-- The same worker run with `tipo_consulta = TIPO_CONSULTA_VEHICULO_SOLO`
(kind 3), the only value the PDF branch tests for. -/
def hiloVehiculoTipo3 : ResultadoHilo :=
  ejecutar_consulta_en_hilo jsonLoadsFalla inicioVehiculo.db 1
    TIPO_CONSULTA_VEHICULO_SOLO (fun _ => "informe") [some respuestaFinalExitosa]

/-- Helper for C5: the inner-payload checks of the source equal the
spec's rule-4/5/6 cascade. -/
theorem revisar_eq_cascade (m : List (String × PyVal)) :
    revisarMensajeJson (PyVal.dict m) =
      (if (match pyGet m "Error" with | PyVal.bool true => true | _ => false) then false
       else if ((pyOr (pyGet m "codigoResultado") (pyGet m "codigo")).truthy
                && (pyStr (pyOr (pyGet m "codigoResultado") (pyGet m "codigo"))).toUpper
                     != "EXITOSO") then false
       else if (match pyGet m "error" with
                | PyVal.str e => textoContiene e.toLower "no encontrado"
                | _ => false) then false
       else true) := by
  simp only [revisarMensajeJson]
  rcases hE : pyGet m "Error" with _ | b | n | s | xs | kvs2 <;> try cases b
  any_goals rfl
  all_goals
    cases h3 : ((pyOr (pyGet m "codigoResultado") (pyGet m "codigo")).truthy
        && (pyStr (pyOr (pyGet m "codigoResultado") (pyGet m "codigo"))).toUpper != "EXITOSO") <;>
    rcases hErr : pyGet m "error" with _ | b2 | n2 | s2 | xs2 | kvs3 <;>
    simp only [h3, hErr] <;> rfl

/-- C5: on every dict payload (the shape the claim's reference definition
describes: an object carrying a top-level status code) the source result
classifier `es_respuesta_exitosa_hercules` agrees with the spec's
reference definition `clasificador_spec`, rules applied in order with
first match winning, for every possible behaviour of the JSON parser. -/
theorem clasificador_coincide_con_spec
    (jl : String → Option PyVal) (kvs : List (String × PyVal)) :
    es_respuesta_exitosa_hercules jl (PyVal.dict kvs) = clasificador_spec jl kvs := by
  simp only [es_respuesta_exitosa_hercules, clasificador_spec, normalizarDato]
  cases h1 : (pyStr (campoTipo kvs) != "0")
  case true => rfl
  rcases hm : campoMensaje kvs with _ | b | n | s | xs | m
  case none => rfl
  case bool => cases b <;> rfl
  case int =>
    cases h2 : ((n : Int) != 0) <;> simp only [PyVal.truthy, h2]
  case str =>
    cases h2 : s.isEmpty <;> simp only [PyVal.truthy, h2]
    case true => rfl
    rcases hj : jl s with _ | v
    · rfl
    · rcases v with _ | b2 | n2 | s2 | xs2 | m2 <;> simp only []
      case dict => exact revisar_eq_cascade m2
      all_goals rfl
  case list =>
    cases h2 : xs.isEmpty <;> simp only [PyVal.truthy, h2]
  case dict =>
    cases h2 : m.isEmpty <;> simp only [PyVal.truthy, h2]
    case true => rfl
    exact revisar_eq_cascade m

/-- C9: the classifier is a total pure function into `Bool` (by
construction of the embedding it performs no I/O and cannot mutate its
argument), and every malformed input — any value that does not normalise
to a dict, including non-dict values and strings that fail to parse,
i.e. every input on which the Python body would have taken its
`except`/non-dict early exits — yields `false` (non-billable). -/
theorem clasificador_total_y_malformado_falso
    (jl : String → Option PyVal) (data : PyVal)
    (h : ∀ kvs, normalizarDato jl data ≠ some (PyVal.dict kvs)) :
    es_respuesta_exitosa_hercules jl data = false := by
  unfold es_respuesta_exitosa_hercules
  rcases hn : normalizarDato jl data with _ | v
  · rfl
  · rcases v with _ | b | n | s | xs | m
    case dict => exact ((h m) hn).elim
    all_goals rfl

/-- Witness for C9 at a concrete malformed input: the integer `5` is not
a dict, and the classifier returns `false` on it. -/
theorem clasificador_total_y_malformado_falso_witness :
    (∀ kvs, normalizarDato jsonLoadsFalla (PyVal.int 5) ≠ some (PyVal.dict kvs)) ∧
    es_respuesta_exitosa_hercules jsonLoadsFalla (PyVal.int 5) = false := by
  have h : ∀ kvs, normalizarDato jsonLoadsFalla (PyVal.int 5) ≠ some (PyVal.dict kvs) := by
    intro kvs hk
    simp [normalizarDato] at hk
  exact ⟨h, clasificador_total_y_malformado_falso jsonLoadsFalla (PyVal.int 5) h⟩

/-- Finding a user after an id-preserving update returns the updated row. -/
theorem buscar_actualizar_usuario (us : List Usuario) (uid : Nat)
    (f : Usuario → Usuario) (hf : ∀ v, (f v).id = v.id) (u : Usuario)
    (h : buscarUsuario us uid = some u) :
    buscarUsuario (actualizarUsuario us uid f) uid = some (f u) := by
  induction us with
  | nil => simp [buscarUsuario] at h
  | cons v rest ih =>
    by_cases hv : v.id = uid
    · simp [buscarUsuario, List.find?_cons, hv] at h
      subst h
      simp [buscarUsuario, actualizarUsuario, List.find?_cons, hv, hf]
    · simp [buscarUsuario, List.find?_cons, hv] at h
      simp [buscarUsuario, actualizarUsuario, List.find?_cons, hv] at ih ⊢
      exact ih h

/-- Finding a record after an id-preserving update returns the updated row. -/
theorem buscar_actualizar_mensaje (ms : List Mensaje) (mid : Nat)
    (f : Mensaje → Mensaje) (hf : ∀ m, (f m).id = m.id) (msg : Mensaje)
    (h : buscarMensaje ms mid = some msg) :
    buscarMensaje (actualizarMensaje ms mid f) mid = some (f msg) := by
  induction ms with
  | nil => simp [buscarMensaje] at h
  | cons v rest ih =>
    by_cases hv : v.id = mid
    · simp [buscarMensaje, List.find?_cons, hv] at h
      subst h
      simp [buscarMensaje, actualizarMensaje, List.find?_cons, hv, hf]
    · simp [buscarMensaje, List.find?_cons, hv] at h
      simp [buscarMensaje, actualizarMensaje, List.find?_cons, hv] at ih ⊢
      exact ih h

/-- Shared helper: the effect of one `marcar_mensaje_exito_y_cobrar`
call on an existing record with an existing owner. -/
theorem exito_resuelve_y_cobra (db : DB) (mid : Nat) (resp : PyVal) (ahora : Nat)
    (msg : Mensaje) (u : Usuario)
    (hm : buscarMensaje db.mensajes mid = some msg)
    (hu : buscarUsuario db.usuarios msg.usuario_id = some u) :
    ∃ db', marcar_mensaje_exito_y_cobrar db mid resp ahora = some db'
       ∧ buscarMensaje db'.mensajes mid =
           some { msg with estado := "exito", respuesta_bruta := some resp }
       ∧ buscarUsuario db'.usuarios msg.usuario_id =
           some { u with creditos_usados := u.creditos_usados + msg.creditos_costo,
                         ultima_consulta := some ahora } := by
  have hrun : marcar_mensaje_exito_y_cobrar db mid resp ahora =
      some { db with
        mensajes := actualizarMensaje db.mensajes mid
          (fun m => { m with estado := "exito", respuesta_bruta := some resp }),
        usuarios := actualizarUsuario db.usuarios msg.usuario_id
          (fun v => { v with
            creditos_usados := v.creditos_usados + msg.creditos_costo,
            ultima_consulta := some ahora }) } := by
    unfold marcar_mensaje_exito_y_cobrar
    simp only [hm, hu]
  refine ⟨_, hrun, ?_, ?_⟩
  · exact buscar_actualizar_mensaje db.mensajes mid
      (fun m => { m with estado := "exito", respuesta_bruta := some resp })
      (fun _ => rfl) msg hm
  · exact buscar_actualizar_usuario db.usuarios msg.usuario_id
      (fun v => { v with creditos_usados := v.creditos_usados + msg.creditos_costo,
                         ultima_consulta := some ahora })
      (fun _ => rfl) u hu

/-- Shared helper: `marcar_mensaje_error_o_sin_datos` never touches any
user row. -/
theorem fallo_no_toca_usuarios (db : DB) (mid : Nat) (est err : String)
    (rb : Option PyVal) :
    (marcar_mensaje_error_o_sin_datos db mid est err rb).usuarios = db.usuarios := by
  unfold marcar_mensaje_error_o_sin_datos
  cases buscarMensaje db.mensajes mid <;> rfl

/-- C1: resolving a record through `marcar_mensaje_exito_y_cobrar`
performs, in the one call, the "exito" transition, the storage of the
raw payload, the charge of exactly the record's captured price to the
owning user's consumed counter and the last-lookup timestamp update;
and resolving through `marcar_mensaje_error_o_sin_datos` (states
"error" / "sin_datos") leaves every user row — hence the consumed
counter — unchanged. -/
theorem cobro_exacto_sii_exito (db : DB) (mid : Nat) (resp : PyVal) (ahora : Nat)
    (msg : Mensaje) (u : Usuario)
    (hm : buscarMensaje db.mensajes mid = some msg)
    (hu : buscarUsuario db.usuarios msg.usuario_id = some u) :
    (∃ db', marcar_mensaje_exito_y_cobrar db mid resp ahora = some db'
       ∧ buscarMensaje db'.mensajes mid =
           some { msg with estado := "exito", respuesta_bruta := some resp }
       ∧ buscarUsuario db'.usuarios msg.usuario_id =
           some { u with creditos_usados := u.creditos_usados + msg.creditos_costo,
                         ultima_consulta := some ahora })
    ∧ (∀ est err rb,
        (marcar_mensaje_error_o_sin_datos db mid est err rb).usuarios = db.usuarios) := by
  exact ⟨exito_resuelve_y_cobra db mid resp ahora msg u hm hu,
         fun est err rb => fallo_no_toca_usuarios db mid est err rb⟩

/-- Witness for C1 on a concrete store. -/
theorem cobro_exacto_sii_exito_witness :
    (∃ db', marcar_mensaje_exito_y_cobrar dbW 1 PyVal.none 7 = some db'
       ∧ buscarMensaje db'.mensajes 1 =
           some { mensajeW with estado := "exito",
                                respuesta_bruta := some PyVal.none }
       ∧ buscarUsuario db'.usuarios mensajeW.usuario_id =
           some { usuarioW with
             creditos_usados := usuarioW.creditos_usados + mensajeW.creditos_costo,
             ultima_consulta := some 7 })
    ∧ (marcar_mensaje_error_o_sin_datos dbW 1 "sin_datos" "detalle"
         Option.none).usuarios = dbW.usuarios := by
  have h := cobro_exacto_sii_exito dbW 1 PyVal.none 7 mensajeW usuarioW rfl rfl
  exact ⟨h.1, h.2 "sin_datos" "detalle" Option.none⟩

/-- Counterexample to C6: on a record already in the terminal state
"exito" (user already charged 5000), calling the success resolution
again charges the user again (consumed goes 5000 → 10000), and calling
the failure resolution overwrites the stored terminal state to "error":
repeated resolution is neither a no-op nor rejected. -/
theorem doble_resolucion_cobra_de_nuevo :
    (buscarMensaje dbResuelto.mensajes 1).map Mensaje.estado = some "exito" ∧
    (buscarUsuario dbResuelto.usuarios 1).map Usuario.creditos_usados = some 5000 ∧
    (∃ db', marcar_mensaje_exito_y_cobrar dbResuelto 1 (PyVal.dict []) 9 = some db'
       ∧ (buscarUsuario db'.usuarios 1).map Usuario.creditos_usados = some 10000) ∧
    (buscarMensaje (marcar_mensaje_error_o_sin_datos dbResuelto 1 "error"
        "repetido" Option.none).mensajes 1).map Mensaje.estado = some "error" := by
  exact ⟨rfl, rfl, ⟨_, rfl, rfl⟩, rfl⟩

/-- C6 amended: the resolution operations carry no terminal-state guard.
For a record in any state — in particular one that has already left
"pendiente" — the success resolution unconditionally sets "exito" and
adds the captured price to the owner's consumed counter again, and the
failure resolution unconditionally overwrites the stored state and
detail; only a nonexistent record id is a no-op. -/
theorem resolucion_terminal_sin_guarda (db : DB) (mid : Nat) (resp : PyVal)
    (ahora : Nat) (msg : Mensaje) (u : Usuario)
    (hm : buscarMensaje db.mensajes mid = some msg)
    (hterm : msg.estado ≠ "pendiente")
    (hu : buscarUsuario db.usuarios msg.usuario_id = some u) :
    (∃ db', marcar_mensaje_exito_y_cobrar db mid resp ahora = some db'
       ∧ buscarMensaje db'.mensajes mid =
           some { msg with estado := "exito", respuesta_bruta := some resp }
       ∧ buscarUsuario db'.usuarios msg.usuario_id =
           some { u with creditos_usados := u.creditos_usados + msg.creditos_costo,
                         ultima_consulta := some ahora })
    ∧ (∀ est err,
        buscarMensaje (marcar_mensaje_error_o_sin_datos db mid est err
            Option.none).mensajes mid =
          some { msg with estado := est,
                          mensaje_error :=
                            some (if err != "" then err else est) }) := by
  refine ⟨exito_resuelve_y_cobra db mid resp ahora msg u hm hu, ?_⟩
  intro est err
  have hrun : marcar_mensaje_error_o_sin_datos db mid est err Option.none =
      { db with mensajes :=
          actualizarMensaje db.mensajes mid (fun m =>
            { m with estado := est,
                     mensaje_error := some (if err != "" then err else est) }) } := by
    unfold marcar_mensaje_error_o_sin_datos
    simp only [hm]
  rw [hrun]
  exact buscar_actualizar_mensaje db.mensajes mid
    (fun m => { m with estado := est,
                       mensaje_error := some (if err != "" then err else est) })
    (fun _ => rfl) msg hm

/-- Witness for the amended C6 on the already-resolved fixture. -/
theorem resolucion_terminal_sin_guarda_witness :
    (∃ db', marcar_mensaje_exito_y_cobrar dbResuelto 1 PyVal.none 9 = some db'
       ∧ buscarMensaje db'.mensajes 1 =
           some { mensajeResuelto with estado := "exito",
                                       respuesta_bruta := some PyVal.none }
       ∧ buscarUsuario db'.usuarios mensajeResuelto.usuario_id =
           some { usuarioCobrado with
             creditos_usados :=
               usuarioCobrado.creditos_usados + mensajeResuelto.creditos_costo,
             ultima_consulta := some 9 })
    ∧ buscarMensaje (marcar_mensaje_error_o_sin_datos dbResuelto 1 "sin_datos"
          "otra vez" Option.none).mensajes 1 =
        some { mensajeResuelto with estado := "sin_datos",
                                    mensaje_error := some "otra vez" } := by
  have h := resolucion_terminal_sin_guarda dbResuelto 1 PyVal.none 9
    mensajeResuelto usuarioCobrado rfl (by decide) rfl
  refine ⟨h.1, ?_⟩
  have h2 := h.2 "sin_datos" "otra vez"
  simpa using h2

/-- C2 (run of the code at the failing input): when every poll response
observed before the deadline is "processing", the loop does stop at the
180-second deadline, but `ultimo_data` then holds the last processing
payload (truthy), so the dead `if not ultimo_data` timeout branch is
skipped and the worker instead classifies the processing payload
(non-billable) and resolves the record "sin_datos" with the no-data
message — not "error" with a timeout detail and the generic failure
message as the specification states.  Nothing is charged. -/
theorem hilo_timeout_procesando_marca_sin_datos :
    bucle_resultados pollsSiempreProcesando 0 Option.none =
      (Except.ok (some respuestaProcesando), RESULTADOS_TIMEOUT) ∧
    (buscarMensaje hiloSoloProcesando.db.mensajes 1).map Mensaje.estado =
      some "sin_datos" ∧
    (buscarMensaje hiloSoloProcesando.db.mensajes 1).map Mensaje.mensaje_error =
      some (some "Consulta sin datos o no exitosa.") ∧
    hiloSoloProcesando.enviados = [MENSAJE_SIN_DATOS] ∧
    (buscarUsuario hiloSoloProcesando.db.usuarios 1).map Usuario.creditos_usados =
      some 0 := by
  exact ⟨rfl, rfl, rfl, rfl, rfl⟩

/-- Counterexample to C3 as stated: on a submit transport failure no
pending registry record exists for the attempt — the registry is empty
and the store is untouched, so no record is "resolved to state error"
(in this source, registration happens only after a successful submit).
The rest of the claim holds: ledger unchanged, generic failure message,
one submit call, no retry, no worker. -/
theorem fallo_envio_no_deja_registro :
    inicioFirmaFalloEnvio.db.mensajes = [] ∧
    inicioFirmaFalloEnvio.db = dbListo ∧
    inicioFirmaFalloEnvio.enviados = [MENSAJE_ERROR_GENERICO] ∧
    inicioFirmaFalloEnvio.llamadasIniciarConsulta = 1 ∧
    inicioFirmaFalloEnvio.hiloLanzado = Option.none := by
  exact ⟨rfl, rfl, rfl, rfl, rfl⟩

/-- C3 amended: when the remote submit fails (transport error or
acknowledgment with no handle), no registry record has yet been created
— submission precedes registration — so none is resolved; the store
(registry and ledger) is unchanged, the generic failure message is the
only text sent, the submit endpoint was called exactly once (no retry)
and no worker is started. -/
theorem fallo_envio_sin_registro_ni_cobro (db : DB) (usuario : Usuario)
    (respuestaHttp : Option PyVal) (tipo_doc num_doc : String)
    (c : ConsultaConfig) (u : Usuario) (e : String)
    (hc : get_consulta_config db TIPO_CONSULTA_FIRMA = some c)
    (hact : c.estado_consulta = "ACTIVA")
    (hu : buscarUsuario db.usuarios usuario.id = some u)
    (hcred : ¬ (usuario_creditos_disponibles u < c.valor_consulta))
    (hsub : llamar_iniciar_consulta TIPO_CONSULTA_FIRMA
        (PyVal.str (tipo_doc ++ "," ++ num_doc)) respuestaHttp = Except.error e) :
    iniciar_consulta_firma db usuario respuestaHttp tipo_doc num_doc =
      { db := db, enviados := [MENSAJE_ERROR_GENERICO],
        llamadasIniciarConsulta := 1, hiloLanzado := Option.none,
        excepcionSincrona := Option.none } := by
  unfold iniciar_consulta_firma verificar_creditos_o_mensaje
  rw [hc]
  have hb : (c.estado_consulta != "ACTIVA") = false := by simp [hact]
  simp [hb, hu, hcred, hsub]

/-- Witness for the amended C3 at a concrete transport failure. -/
theorem fallo_envio_sin_registro_ni_cobro_witness :
    iniciar_consulta_firma dbListo usuarioConSaldo Option.none "CC" "123456" =
      { db := dbListo, enviados := [MENSAJE_ERROR_GENERICO],
        llamadasIniciarConsulta := 1, hiloLanzado := Option.none,
        excepcionSincrona := Option.none } := by
  exact fallo_envio_sin_registro_ni_cobro dbListo usuarioConSaldo Option.none
    "CC" "123456" configFirmaDefecto usuarioConSaldo "HTTPError en IniciarConsulta"
    rfl rfl rfl (by decide) rfl

/-- C4: admission gating on `iniciar_consulta_firma`.  A kind that is
missing or not ACTIVA refuses with the disabled message; an ACTIVA kind
whose price exceeds the user's available credits refuses with the
insufficient-credits message.  In both cases the store is returned
unchanged (no registry record, no charge), the remote submit endpoint is
never called, no worker starts and the refusal text is the only message
sent. -/
theorem admision_rechazo_sin_efectos (db : DB) (usuario : Usuario)
    (respuestaHttp : Option PyVal) (tipo_doc num_doc : String) :
    ((∀ c, get_consulta_config db TIPO_CONSULTA_FIRMA = some c →
        c.estado_consulta ≠ "ACTIVA") →
      iniciar_consulta_firma db usuario respuestaHttp tipo_doc num_doc =
        { db := db, enviados := [MENSAJE_CONSULTA_DESHABILITADA],
          llamadasIniciarConsulta := 0, hiloLanzado := Option.none,
          excepcionSincrona := Option.none })
    ∧ (∀ c u, get_consulta_config db TIPO_CONSULTA_FIRMA = some c →
        c.estado_consulta = "ACTIVA" →
        buscarUsuario db.usuarios usuario.id = some u →
        usuario_creditos_disponibles u < c.valor_consulta →
        iniciar_consulta_firma db usuario respuestaHttp tipo_doc num_doc =
          { db := db, enviados := [MENSAJE_SIN_CREDITOS],
            llamadasIniciarConsulta := 0, hiloLanzado := Option.none,
            excepcionSincrona := Option.none }) := by
  constructor
  · intro h
    unfold iniciar_consulta_firma verificar_creditos_o_mensaje
    cases hc : get_consulta_config db TIPO_CONSULTA_FIRMA with
    | none => rfl
    | some c =>
      have hact : c.estado_consulta ≠ "ACTIVA" := h c hc
      have hb : (c.estado_consulta != "ACTIVA") = true := by
        simpa [bne_iff_ne] using hact
      simp [hb]
  · intro c u hc hact hu hlt
    unfold iniciar_consulta_firma verificar_creditos_o_mensaje
    rw [hc]
    have hb : (c.estado_consulta != "ACTIVA") = false := by
      simp [hact]
    simp [hb, hu, hlt]

/-- Witness for C4: a disabled kind refuses with the disabled message
and a brand-new user is refused for insufficient credits, both with the
store untouched and the remote client never called. -/
theorem admision_rechazo_sin_efectos_witness :
    iniciar_consulta_firma dbFirmaInactiva usuarioConSaldo Option.none "CC" "9" =
      { db := dbFirmaInactiva, enviados := [MENSAJE_CONSULTA_DESHABILITADA],
        llamadasIniciarConsulta := 0, hiloLanzado := Option.none,
        excepcionSincrona := Option.none } ∧
    iniciar_consulta_firma dbNuevo usuarioNuevo Option.none "CC" "9" =
      { db := dbNuevo, enviados := [MENSAJE_SIN_CREDITOS],
        llamadasIniciarConsulta := 0, hiloLanzado := Option.none,
        excepcionSincrona := Option.none } := by
  constructor
  · exact (admision_rechazo_sin_efectos dbFirmaInactiva usuarioConSaldo
      Option.none "CC" "9").1
      (by intro c hc; injection hc with h; rw [← h]; decide)
  · exact (admision_rechazo_sin_efectos dbNuevo usuarioNuevo
      Option.none "CC" "9").2 configFirmaDefecto usuarioNuevo rfl rfl rfl (by decide)

/-- C7 (run of the code at the failing input): a vehicle lookup never
delivers the PDF.  The worker-launch call raises `TypeError` before any
worker starts (stray positional argument duplicating `chat_id`), leaving
the record pending, so no vehicle lookup ever resolves billable success;
and even invoking the worker directly with the kind the call passes
(kind 1), a billable success resolves "exito" without generating the PDF
— the PDF branch tests kind 3, which the vehicle flow never passes. -/
theorem vehiculo_exito_sin_pdf :
    inicioVehiculo.excepcionSincrona.isSome = true ∧
    inicioVehiculo.hiloLanzado = Option.none ∧
    inicioVehiculo.db.mensajes.map Mensaje.estado = ["pendiente"] ∧
    TIPO_CONSULTA_VEHICULO_PERSONA ≠ TIPO_CONSULTA_VEHICULO_SOLO ∧
    es_respuesta_exitosa_hercules jsonLoadsFalla respuestaFinalExitosa = true ∧
    (buscarMensaje hiloVehiculoComoLlamado.db.mensajes 1).map Mensaje.estado =
      some "exito" ∧
    hiloVehiculoComoLlamado.pdfEnviado = false ∧
    hiloVehiculoTipo3.pdfEnviado = true := by
  exact ⟨rfl, rfl, rfl, by decide, rfl, rfl, rfl, rfl⟩

/-- C8 (run of the code at the failing input): for a vehicle lookup the
pending record is created and then the worker-launch call raises
`TypeError` synchronously — the exception escapes to the caller's
request path, no worker exists to resolve the record, no error
resolution happens and no message is sent: the record is left
permanently "pendiente". -/
theorem vehiculo_excepcion_sincrona_registro_pendiente :
    inicioVehiculo.excepcionSincrona =
      some "TypeError: ejecutar_consulta_en_hilo got multiple values for argument chat_id" ∧
    inicioVehiculo.db.mensajes.map Mensaje.estado = ["pendiente"] ∧
    inicioVehiculo.db.mensajes.map Mensaje.tipo_consulta =
      [TIPO_CONSULTA_VEHICULO_PERSONA] ∧
    inicioVehiculo.enviados = [] ∧
    inicioVehiculo.hiloLanzado = Option.none := by
  exact ⟨rfl, rfl, rfl, rfl, rfl⟩

/-- C10: a user created lazily on first contact has 10 granted credits,
0 consumed and therefore 10 available; every kind seeded by `init_db`
costs 5000 and is ACTIVA; and under these defaults the new user is
refused with the insufficient-credits message for all four lookup kinds
— no record created, no remote call, store unchanged. -/
theorem usuario_nuevo_rechazado_por_saldo :
    usuarioNuevo.creditos_total = 10 ∧
    usuarioNuevo.creditos_usados = 0 ∧
    usuario_creditos_disponibles usuarioNuevo = 10 ∧
    (dbInicial.configs.all fun c =>
      (c.valor_consulta == 5000) && (c.estado_consulta == "ACTIVA")) = true ∧
    dbInicial.configs.length = 4 ∧
    iniciar_consulta_firma dbNuevo usuarioNuevo (some respuestaIdPeticion)
        "CC" "123" =
      { db := dbNuevo, enviados := [MENSAJE_SIN_CREDITOS],
        llamadasIniciarConsulta := 0, hiloLanzado := Option.none,
        excepcionSincrona := Option.none } ∧
    iniciar_consulta_persona dbNuevo usuarioNuevo (some respuestaIdPeticion)
        "CC" "123" =
      { db := dbNuevo, enviados := [MENSAJE_SIN_CREDITOS],
        llamadasIniciarConsulta := 0, hiloLanzado := Option.none,
        excepcionSincrona := Option.none } ∧
    iniciar_consulta_vehiculo dbNuevo usuarioNuevo (some respuestaIdPeticion)
        "ABC123" =
      { db := dbNuevo, enviados := [MENSAJE_SIN_CREDITOS],
        llamadasIniciarConsulta := 0, hiloLanzado := Option.none,
        excepcionSincrona := Option.none } ∧
    iniciar_consulta_propietario dbNuevo usuarioNuevo (some respuestaIdPeticion)
        "ABC123" =
      { db := dbNuevo, enviados := [MENSAJE_SIN_CREDITOS],
        llamadasIniciarConsulta := 0, hiloLanzado := Option.none,
        excepcionSincrona := Option.none } := by
  exact ⟨rfl, rfl, rfl, rfl, rfl, rfl, rfl, rfl, rfl⟩
